import Mathlib

/-!
Shallow embedding of `src/implementors/parity_scale_codec/codec/trait.Encode.js`,
a rustdoc-generated registration shim.  The script builds a constant object
`implementors` mapping crate names to arrays of descriptor records, then runs

  if (window.register_implementors) { window.register_implementors(implementors); }
  else { window.pending_implementors = implementors; }

inside an IIFE.  We model the JSON records with `ImplementorDescriptor`, the
`implementors` object with `load : Registry` (an ordered association list,
faithful to JS object insertion order), and the browser-global state touched by
the script with `WindowState`: the presence of the hook
`window.register_implementors`, the slot `window.pending_implementors`, and a
log of hook invocations (each entry is the argument of one call, so the log
records both the number of calls and their arguments).
-/

/-- One trait-implementation descriptor record, exactly the three JSON fields
of each array element in the source: `text`, `synthetic`, `types`. -/
structure ImplementorDescriptor where
  text : String
  synthetic : Bool
  types : List String
deriving DecidableEq, Repr

/-- The registry: an ordered mapping from module name to its descriptor
sequence, as built by the assignments `implementors["..."] = [...]`. -/
abbrev Registry := List (String × List ImplementorDescriptor)

def load : Registry :=
  [("ink_env",
   [⟨"impl&lt;T&gt; Encode for <a class=\"struct\" href=\"ink_env/call/utils/struct.Argument.html\" title=\"struct ink_env::call::utils::Argument\">Argument</a>&lt;T&gt; <span class=\"where fmt-newline\">where<br>&nbsp;&nbsp;&nbsp;&nbsp;T: Encode,&nbsp;</span>", false, ["ink_env::call::execution_input::Argument"]⟩,
    ⟨"impl Encode for <a class=\"type\" href=\"ink_env/call/utils/type.EmptyArgumentList.html\" title=\"type ink_env::call::utils::EmptyArgumentList\">EmptyArgumentList</a>", false, ["ink_env::call::execution_input::EmptyArgumentList"]⟩,
    ⟨"impl&lt;\x27a, Head, Rest&gt; Encode for <a class=\"struct\" href=\"ink_env/call/utils/struct.ArgumentList.html\" title=\"struct ink_env::call::utils::ArgumentList\">ArgumentList</a>&lt;<a class=\"struct\" href=\"ink_env/call/utils/struct.Argument.html\" title=\"struct ink_env::call::utils::Argument\">Argument</a>&lt;Head&gt;, Rest&gt; <span class=\"where fmt-newline\">where<br>&nbsp;&nbsp;&nbsp;&nbsp;Head: Encode,<br>&nbsp;&nbsp;&nbsp;&nbsp;Rest: Encode,&nbsp;</span>", false, ["ink_env::call::execution_input::ArgumentList"]⟩,
    ⟨"impl&lt;Args&gt; Encode for <a class=\"struct\" href=\"ink_env/call/struct.ExecutionInput.html\" title=\"struct ink_env::call::ExecutionInput\">ExecutionInput</a>&lt;Args&gt; <span class=\"where fmt-newline\">where<br>&nbsp;&nbsp;&nbsp;&nbsp;Args: Encode,&nbsp;</span>", false, ["ink_env::call::execution_input::ExecutionInput"]⟩,
    ⟨"impl Encode for <a class=\"struct\" href=\"ink_env/call/struct.Selector.html\" title=\"struct ink_env::call::Selector\">Selector</a>", false, ["ink_env::call::selector::Selector"]⟩,
    ⟨"impl Encode for <a class=\"struct\" href=\"ink_env/test/struct.CallData.html\" title=\"struct ink_env::test::CallData\">CallData</a>", false, ["ink_env::engine::off_chain::call_data::CallData"]⟩,
    ⟨"impl Encode for <a class=\"struct\" href=\"ink_env/struct.AccountId.html\" title=\"struct ink_env::AccountId\">AccountId</a>", false, ["ink_env::types::AccountId"]⟩,
    ⟨"impl Encode for <a class=\"struct\" href=\"ink_env/struct.Hash.html\" title=\"struct ink_env::Hash\">Hash</a>", false, ["ink_env::types::Hash"]⟩]),
   ("ink_primitives",
   [⟨"impl Encode for <a class=\"struct\" href=\"ink_primitives/struct.Key.html\" title=\"struct ink_primitives::Key\">Key</a>", false, ["ink_primitives::key::Key"]⟩]),
   ("scale_info",
   [⟨"impl&lt;T&gt; Encode for <a class=\"struct\" href=\"scale_info/interner/struct.UntrackedSymbol.html\" title=\"struct scale_info::interner::UntrackedSymbol\">UntrackedSymbol</a>&lt;T&gt; <span class=\"where fmt-newline\">where<br>&nbsp;&nbsp;&nbsp;&nbsp;<a class=\"struct\" href=\"scale_info/prelude/marker/struct.PhantomData.html\" title=\"struct scale_info::prelude::marker::PhantomData\">PhantomData</a>&lt;<a class=\"primitive\" href=\"https://doc.rust-lang.org/nightly/std/primitive.fn.html\">fn</a>() -&gt; T&gt;: Encode,<br>&nbsp;&nbsp;&nbsp;&nbsp;<a class=\"struct\" href=\"scale_info/prelude/marker/struct.PhantomData.html\" title=\"struct scale_info::prelude::marker::PhantomData\">PhantomData</a>&lt;<a class=\"primitive\" href=\"https://doc.rust-lang.org/nightly/std/primitive.fn.html\">fn</a>() -&gt; T&gt;: Encode,&nbsp;</span>", false, ["scale_info::interner::UntrackedSymbol"]⟩,
    ⟨"impl Encode for <a class=\"struct\" href=\"scale_info/struct.PortableRegistry.html\" title=\"struct scale_info::PortableRegistry\">PortableRegistry</a>", false, ["scale_info::registry::PortableRegistry"]⟩,
    ⟨"impl&lt;T:&nbsp;<a class=\"trait\" href=\"scale_info/form/trait.Form.html\" title=\"trait scale_info::form::Form\">Form</a>&gt; Encode for <a class=\"struct\" href=\"scale_info/struct.TypeDefComposite.html\" title=\"struct scale_info::TypeDefComposite\">TypeDefComposite</a>&lt;T&gt; <span class=\"where fmt-newline\">where<br>&nbsp;&nbsp;&nbsp;&nbsp;<a class=\"struct\" href=\"scale_info/prelude/vec/struct.Vec.html\" title=\"struct scale_info::prelude::vec::Vec\">Vec</a>&lt;<a class=\"struct\" href=\"scale_info/struct.Field.html\" title=\"struct scale_info::Field\">Field</a>&lt;T&gt;&gt;: Encode,<br>&nbsp;&nbsp;&nbsp;&nbsp;<a class=\"struct\" href=\"scale_info/prelude/vec/struct.Vec.html\" title=\"struct scale_info::prelude::vec::Vec\">Vec</a>&lt;<a class=\"struct\" href=\"scale_info/struct.Field.html\" title=\"struct scale_info::Field\">Field</a>&lt;T&gt;&gt;: Encode,&nbsp;</span>", false, ["scale_info::ty::composite::TypeDefComposite"]⟩,
    ⟨"impl&lt;T:&nbsp;<a class=\"trait\" href=\"scale_info/form/trait.Form.html\" title=\"trait scale_info::form::Form\">Form</a>&gt; Encode for <a class=\"struct\" href=\"scale_info/struct.Field.html\" title=\"struct scale_info::Field\">Field</a>&lt;T&gt; <span class=\"where fmt-newline\">where<br>&nbsp;&nbsp;&nbsp;&nbsp;<a class=\"enum\" href=\"https://doc.rust-lang.org/nightly/core/option/enum.Option.html\" title=\"enum core::option::Option\">Option</a>&lt;T::<a class=\"associatedtype\" href=\"scale_info/form/trait.Form.html#associatedtype.String\" title=\"type scale_info::form::Form::String\">String</a>&gt;: Encode,<br>&nbsp;&nbsp;&nbsp;&nbsp;<a class=\"enum\" href=\"https://doc.rust-lang.org/nightly/core/option/enum.Option.html\" title=\"enum core::option::Option\">Option</a>&lt;T::<a class=\"associatedtype\" href=\"scale_info/form/trait.Form.html#associatedtype.String\" title=\"type scale_info::form::Form::String\">String</a>&gt;: Encode,<br>&nbsp;&nbsp;&nbsp;&nbsp;T::<a class=\"associatedtype\" href=\"scale_info/form/trait.Form.html#associatedtype.Type\" title=\"type scale_info::form::Form::Type\">Type</a>: Encode,<br>&nbsp;&nbsp;&nbsp;&nbsp;T::<a class=\"associatedtype\" href=\"scale_info/form/trait.Form.html#associatedtype.Type\" title=\"type scale_info::form::Form::Type\">Type</a>: Encode,<br>&nbsp;&nbsp;&nbsp;&nbsp;<a class=\"enum\" href=\"https://doc.rust-lang.org/nightly/core/option/enum.Option.html\" title=\"enum core::option::Option\">Option</a>&lt;T::<a class=\"associatedtype\" href=\"scale_info/form/trait.Form.html#associatedtype.String\" title=\"type scale_info::form::Form::String\">String</a>&gt;: Encode,<br>&nbsp;&nbsp;&nbsp;&nbsp;<a class=\"enum\" href=\"https://doc.rust-lang.org/nightly/core/option/enum.Option.html\" title=\"enum core::option::Option\">Option</a>&lt;T::<a class=\"associatedtype\" href=\"scale_info/form/trait.Form.html#associatedtype.String\" title=\"type scale_info::form::Form::String\">String</a>&gt;: Encode,<br>&nbsp;&nbsp;&nbsp;&nbsp;<a class=\"struct\" href=\"scale_info/prelude/vec/struct.Vec.html\" title=\"struct scale_info::prelude::vec::Vec\">Vec</a>&lt;T::<a class=\"associatedtype\" href=\"scale_info/form/trait.Form.html#associatedtype.String\" title=\"type scale_info::form::Form::String\">String</a>&gt;: Encode,<br>&nbsp;&nbsp;&nbsp;&nbsp;<a class=\"struct\" href=\"scale_info/prelude/vec/struct.Vec.html\" title=\"struct scale_info::prelude::vec::Vec\">Vec</a>&lt;T::<a class=\"associatedtype\" href=\"scale_info/form/trait.Form.html#associatedtype.String\" title=\"type scale_info::form::Form::String\">String</a>&gt;: Encode,&nbsp;</span>", false, ["scale_info::ty::fields::Field"]⟩,
    ⟨"impl&lt;T:&nbsp;<a class=\"trait\" href=\"scale_info/form/trait.Form.html\" title=\"trait scale_info::form::Form\">Form</a>&gt; Encode for <a class=\"struct\" href=\"scale_info/struct.Path.html\" title=\"struct scale_info::Path\">Path</a>&lt;T&gt; <span class=\"where fmt-newline\">where<br>&nbsp;&nbsp;&nbsp;&nbsp;<a class=\"struct\" href=\"scale_info/prelude/vec/struct.Vec.html\" title=\"struct scale_info::prelude::vec::Vec\">Vec</a>&lt;T::<a class=\"associatedtype\" href=\"scale_info/form/trait.Form.html#associatedtype.String\" title=\"type scale_info::form::Form::String\">String</a>&gt;: Encode,<br>&nbsp;&nbsp;&nbsp;&nbsp;<a class=\"struct\" href=\"scale_info/prelude/vec/struct.Vec.html\" title=\"struct scale_info::prelude::vec::Vec\">Vec</a>&lt;T::<a class=\"associatedtype\" href=\"scale_info/form/trait.Form.html#associatedtype.String\" title=\"type scale_info::form::Form::String\">String</a>&gt;: Encode,&nbsp;</span>", false, ["scale_info::ty::path::Path"]⟩,
    ⟨"impl&lt;T:&nbsp;<a class=\"trait\" href=\"scale_info/form/trait.Form.html\" title=\"trait scale_info::form::Form\">Form</a>&gt; Encode for <a class=\"struct\" href=\"scale_info/struct.TypeDefVariant.html\" title=\"struct scale_info::TypeDefVariant\">TypeDefVariant</a>&lt;T&gt; <span class=\"where fmt-newline\">where<br>&nbsp;&nbsp;&nbsp;&nbsp;<a class=\"struct\" href=\"scale_info/prelude/vec/struct.Vec.html\" title=\"struct scale_info::prelude::vec::Vec\">Vec</a>&lt;<a class=\"struct\" href=\"scale_info/struct.Variant.html\" title=\"struct scale_info::Variant\">Variant</a>&lt;T&gt;&gt;: Encode,<br>&nbsp;&nbsp;&nbsp;&nbsp;<a class=\"struct\" href=\"scale_info/prelude/vec/struct.Vec.html\" title=\"struct scale_info::prelude::vec::Vec\">Vec</a>&lt;<a class=\"struct\" href=\"scale_info/struct.Variant.html\" title=\"struct scale_info::Variant\">Variant</a>&lt;T&gt;&gt;: Encode,&nbsp;</span>", false, ["scale_info::ty::variant::TypeDefVariant"]⟩,
    ⟨"impl&lt;T:&nbsp;<a class=\"trait\" href=\"scale_info/form/trait.Form.html\" title=\"trait scale_info::form::Form\">Form</a>&gt; Encode for <a class=\"struct\" href=\"scale_info/struct.Variant.html\" title=\"struct scale_info::Variant\">Variant</a>&lt;T&gt; <span class=\"where fmt-newline\">where<br>&nbsp;&nbsp;&nbsp;&nbsp;T::<a class=\"associatedtype\" href=\"scale_info/form/trait.Form.html#associatedtype.String\" title=\"type scale_info::form::Form::String\">String</a>: Encode,<br>&nbsp;&nbsp;&nbsp;&nbsp;T::<a class=\"associatedtype\" href=\"scale_info/form/trait.Form.html#associatedtype.String\" title=\"type scale_info::form::Form::String\">String</a>: Encode,<br>&nbsp;&nbsp;&nbsp;&nbsp;<a class=\"struct\" href=\"scale_info/prelude/vec/struct.Vec.html\" title=\"struct scale_info::prelude::vec::Vec\">Vec</a>&lt;<a class=\"struct\" href=\"scale_info/struct.Field.html\" title=\"struct scale_info::Field\">Field</a>&lt;T&gt;&gt;: Encode,<br>&nbsp;&nbsp;&nbsp;&nbsp;<a class=\"struct\" href=\"scale_info/prelude/vec/struct.Vec.html\" title=\"struct scale_info::prelude::vec::Vec\">Vec</a>&lt;<a class=\"struct\" href=\"scale_info/struct.Field.html\" title=\"struct scale_info::Field\">Field</a>&lt;T&gt;&gt;: Encode,<br>&nbsp;&nbsp;&nbsp;&nbsp;<a class=\"struct\" href=\"scale_info/prelude/vec/struct.Vec.html\" title=\"struct scale_info::prelude::vec::Vec\">Vec</a>&lt;T::<a class=\"associatedtype\" href=\"scale_info/form/trait.Form.html#associatedtype.String\" title=\"type scale_info::form::Form::String\">String</a>&gt;: Encode,<br>&nbsp;&nbsp;&nbsp;&nbsp;<a class=\"struct\" href=\"scale_info/prelude/vec/struct.Vec.html\" title=\"struct scale_info::prelude::vec::Vec\">Vec</a>&lt;T::<a class=\"associatedtype\" href=\"scale_info/form/trait.Form.html#associatedtype.String\" title=\"type scale_info::form::Form::String\">String</a>&gt;: Encode,&nbsp;</span>", false, ["scale_info::ty::variant::Variant"]⟩,
    ⟨"impl&lt;T:&nbsp;<a class=\"trait\" href=\"scale_info/form/trait.Form.html\" title=\"trait scale_info::form::Form\">Form</a>&gt; Encode for <a class=\"struct\" href=\"scale_info/struct.Type.html\" title=\"struct scale_info::Type\">Type</a>&lt;T&gt; <span class=\"where fmt-newline\">where<br>&nbsp;&nbsp;&nbsp;&nbsp;<a class=\"struct\" href=\"scale_info/struct.Path.html\" title=\"struct scale_info::Path\">Path</a>&lt;T&gt;: Encode,<br>&nbsp;&nbsp;&nbsp;&nbsp;<a class=\"struct\" href=\"scale_info/struct.Path.html\" title=\"struct scale_info::Path\">Path</a>&lt;T&gt;: Encode,<br>&nbsp;&nbsp;&nbsp;&nbsp;<a class=\"struct\" href=\"scale_info/prelude/vec/struct.Vec.html\" title=\"struct scale_info::prelude::vec::Vec\">Vec</a>&lt;<a class=\"struct\" href=\"scale_info/struct.TypeParameter.html\" title=\"struct scale_info::TypeParameter\">TypeParameter</a>&lt;T&gt;&gt;: Encode,<br>&nbsp;&nbsp;&nbsp;&nbsp;<a class=\"struct\" href=\"scale_info/prelude/vec/struct.Vec.html\" title=\"struct scale_info::prelude::vec::Vec\">Vec</a>&lt;<a class=\"struct\" href=\"scale_info/struct.TypeParameter.html\" title=\"struct scale_info::TypeParameter\">TypeParameter</a>&lt;T&gt;&gt;: Encode,<br>&nbsp;&nbsp;&nbsp;&nbsp;<a class=\"enum\" href=\"scale_info/enum.TypeDef.html\" title=\"enum scale_info::TypeDef\">TypeDef</a>&lt;T&gt;: Encode,<br>&nbsp;&nbsp;&nbsp;&nbsp;<a class=\"enum\" href=\"scale_info/enum.TypeDef.html\" title=\"enum scale_info::TypeDef\">TypeDef</a>&lt;T&gt;: Encode,<br>&nbsp;&nbsp;&nbsp;&nbsp;<a class=\"struct\" href=\"scale_info/prelude/vec/struct.Vec.html\" title=\"struct scale_info::prelude::vec::Vec\">Vec</a>&lt;T::<a class=\"associatedtype\" href=\"scale_info/form/trait.Form.html#associatedtype.String\" title=\"type scale_info::form::Form::String\">String</a>&gt;: Encode,<br>&nbsp;&nbsp;&nbsp;&nbsp;<a class=\"struct\" href=\"scale_info/prelude/vec/struct.Vec.html\" title=\"struct scale_info::prelude::vec::Vec\">Vec</a>&lt;T::<a class=\"associatedtype\" href=\"scale_info/form/trait.Form.html#associatedtype.String\" title=\"type scale_info::form::Form::String\">String</a>&gt;: Encode,&nbsp;</span>", false, ["scale_info::ty::Type"]⟩,
    ⟨"impl&lt;T:&nbsp;<a class=\"trait\" href=\"scale_info/form/trait.Form.html\" title=\"trait scale_info::form::Form\">Form</a>&gt; Encode for <a class=\"struct\" href=\"scale_info/struct.TypeParameter.html\" title=\"struct scale_info::TypeParameter\">TypeParameter</a>&lt;T&gt; <span class=\"where fmt-newline\">where<br>&nbsp;&nbsp;&nbsp;&nbsp;T::<a class=\"associatedtype\" href=\"scale_info/form/trait.Form.html#associatedtype.String\" title=\"type scale_info::form::Form::String\">String</a>: Encode,<br>&nbsp;&nbsp;&nbsp;&nbsp;T::<a class=\"associatedtype\" href=\"scale_info/form/trait.Form.html#associatedtype.String\" title=\"type scale_info::form::Form::String\">String</a>: Encode,<br>&nbsp;&nbsp;&nbsp;&nbsp;<a class=\"enum\" href=\"https://doc.rust-lang.org/nightly/core/option/enum.Option.html\" title=\"enum core::option::Option\">Option</a>&lt;T::<a class=\"associatedtype\" href=\"scale_info/form/trait.Form.html#associatedtype.Type\" title=\"type scale_info::form::Form::Type\">Type</a>&gt;: Encode,<br>&nbsp;&nbsp;&nbsp;&nbsp;<a class=\"enum\" href=\"https://doc.rust-lang.org/nightly/core/option/enum.Option.html\" title=\"enum core::option::Option\">Option</a>&lt;T::<a class=\"associatedtype\" href=\"scale_info/form/trait.Form.html#associatedtype.Type\" title=\"type scale_info::form::Form::Type\">Type</a>&gt;: Encode,&nbsp;</span>", false, ["scale_info::ty::TypeParameter"]⟩,
    ⟨"impl&lt;T:&nbsp;<a class=\"trait\" href=\"scale_info/form/trait.Form.html\" title=\"trait scale_info::form::Form\">Form</a>&gt; Encode for <a class=\"enum\" href=\"scale_info/enum.TypeDef.html\" title=\"enum scale_info::TypeDef\">TypeDef</a>&lt;T&gt; <span class=\"where fmt-newline\">where<br>&nbsp;&nbsp;&nbsp;&nbsp;<a class=\"struct\" href=\"scale_info/struct.TypeDefComposite.html\" title=\"struct scale_info::TypeDefComposite\">TypeDefComposite</a>&lt;T&gt;: Encode,<br>&nbsp;&nbsp;&nbsp;&nbsp;<a class=\"struct\" href=\"scale_info/struct.TypeDefComposite.html\" title=\"struct scale_info::TypeDefComposite\">TypeDefComposite</a>&lt;T&gt;: Encode,<br>&nbsp;&nbsp;&nbsp;&nbsp;<a class=\"struct\" href=\"scale_info/struct.TypeDefVariant.html\" title=\"struct scale_info::TypeDefVariant\">TypeDefVariant</a>&lt;T&gt;: Encode,<br>&nbsp;&nbsp;&nbsp;&nbsp;<a class=\"struct\" href=\"scale_info/struct.TypeDefVariant.html\" title=\"struct scale_info::TypeDefVariant\">TypeDefVariant</a>&lt;T&gt;: Encode,<br>&nbsp;&nbsp;&nbsp;&nbsp;<a class=\"struct\" href=\"scale_info/struct.TypeDefSequence.html\" title=\"struct scale_info::TypeDefSequence\">TypeDefSequence</a>&lt;T&gt;: Encode,<br>&nbsp;&nbsp;&nbsp;&nbsp;<a class=\"struct\" href=\"scale_info/struct.TypeDefSequence.html\" title=\"struct scale_info::TypeDefSequence\">TypeDefSequence</a>&lt;T&gt;: Encode,<br>&nbsp;&nbsp;&nbsp;&nbsp;<a class=\"struct\" href=\"scale_info/struct.TypeDefArray.html\" title=\"struct scale_info::TypeDefArray\">TypeDefArray</a>&lt;T&gt;: Encode,<br>&nbsp;&nbsp;&nbsp;&nbsp;<a class=\"struct\" href=\"scale_info/struct.TypeDefArray.html\" title=\"struct scale_info::TypeDefArray\">TypeDefArray</a>&lt;T&gt;: Encode,<br>&nbsp;&nbsp;&nbsp;&nbsp;<a class=\"struct\" href=\"scale_info/struct.TypeDefTuple.html\" title=\"struct scale_info::TypeDefTuple\">TypeDefTuple</a>&lt;T&gt;: Encode,<br>&nbsp;&nbsp;&nbsp;&nbsp;<a class=\"struct\" href=\"scale_info/struct.TypeDefTuple.html\" title=\"struct scale_info::TypeDefTuple\">TypeDefTuple</a>&lt;T&gt;: Encode,<br>&nbsp;&nbsp;&nbsp;&nbsp;<a class=\"struct\" href=\"scale_info/struct.TypeDefCompact.html\" title=\"struct scale_info::TypeDefCompact\">TypeDefCompact</a>&lt;T&gt;: Encode,<br>&nbsp;&nbsp;&nbsp;&nbsp;<a class=\"struct\" href=\"scale_info/struct.TypeDefCompact.html\" title=\"struct scale_info::TypeDefCompact\">TypeDefCompact</a>&lt;T&gt;: Encode,<br>&nbsp;&nbsp;&nbsp;&nbsp;<a class=\"struct\" href=\"scale_info/struct.TypeDefBitSequence.html\" title=\"struct scale_info::TypeDefBitSequence\">TypeDefBitSequence</a>&lt;T&gt;: Encode,<br>&nbsp;&nbsp;&nbsp;&nbsp;<a class=\"struct\" href=\"scale_info/struct.TypeDefBitSequence.html\" title=\"struct scale_info::TypeDefBitSequence\">TypeDefBitSequence</a>&lt;T&gt;: Encode,&nbsp;</span>", false, ["scale_info::ty::TypeDef"]⟩,
    ⟨"impl Encode for <a class=\"enum\" href=\"scale_info/enum.TypeDefPrimitive.html\" title=\"enum scale_info::TypeDefPrimitive\">TypeDefPrimitive</a>", false, ["scale_info::ty::TypeDefPrimitive"]⟩,
    ⟨"impl&lt;T:&nbsp;<a class=\"trait\" href=\"scale_info/form/trait.Form.html\" title=\"trait scale_info::form::Form\">Form</a>&gt; Encode for <a class=\"struct\" href=\"scale_info/struct.TypeDefArray.html\" title=\"struct scale_info::TypeDefArray\">TypeDefArray</a>&lt;T&gt; <span class=\"where fmt-newline\">where<br>&nbsp;&nbsp;&nbsp;&nbsp;T::<a class=\"associatedtype\" href=\"scale_info/form/trait.Form.html#associatedtype.Type\" title=\"type scale_info::form::Form::Type\">Type</a>: Encode,<br>&nbsp;&nbsp;&nbsp;&nbsp;T::<a class=\"associatedtype\" href=\"scale_info/form/trait.Form.html#associatedtype.Type\" title=\"type scale_info::form::Form::Type\">Type</a>: Encode,&nbsp;</span>", false, ["scale_info::ty::TypeDefArray"]⟩,
    ⟨"impl&lt;T:&nbsp;<a class=\"trait\" href=\"scale_info/form/trait.Form.html\" title=\"trait scale_info::form::Form\">Form</a>&gt; Encode for <a class=\"struct\" href=\"scale_info/struct.TypeDefTuple.html\" title=\"struct scale_info::TypeDefTuple\">TypeDefTuple</a>&lt;T&gt; <span class=\"where fmt-newline\">where<br>&nbsp;&nbsp;&nbsp;&nbsp;<a class=\"struct\" href=\"scale_info/prelude/vec/struct.Vec.html\" title=\"struct scale_info::prelude::vec::Vec\">Vec</a>&lt;T::<a class=\"associatedtype\" href=\"scale_info/form/trait.Form.html#associatedtype.Type\" title=\"type scale_info::form::Form::Type\">Type</a>&gt;: Encode,<br>&nbsp;&nbsp;&nbsp;&nbsp;<a class=\"struct\" href=\"scale_info/prelude/vec/struct.Vec.html\" title=\"struct scale_info::prelude::vec::Vec\">Vec</a>&lt;T::<a class=\"associatedtype\" href=\"scale_info/form/trait.Form.html#associatedtype.Type\" title=\"type scale_info::form::Form::Type\">Type</a>&gt;: Encode,&nbsp;</span>", false, ["scale_info::ty::TypeDefTuple"]⟩,
    ⟨"impl&lt;T:&nbsp;<a class=\"trait\" href=\"scale_info/form/trait.Form.html\" title=\"trait scale_info::form::Form\">Form</a>&gt; Encode for <a class=\"struct\" href=\"scale_info/struct.TypeDefSequence.html\" title=\"struct scale_info::TypeDefSequence\">TypeDefSequence</a>&lt;T&gt; <span class=\"where fmt-newline\">where<br>&nbsp;&nbsp;&nbsp;&nbsp;T::<a class=\"associatedtype\" href=\"scale_info/form/trait.Form.html#associatedtype.Type\" title=\"type scale_info::form::Form::Type\">Type</a>: Encode,<br>&nbsp;&nbsp;&nbsp;&nbsp;T::<a class=\"associatedtype\" href=\"scale_info/form/trait.Form.html#associatedtype.Type\" title=\"type scale_info::form::Form::Type\">Type</a>: Encode,&nbsp;</span>", false, ["scale_info::ty::TypeDefSequence"]⟩,
    ⟨"impl&lt;T:&nbsp;<a class=\"trait\" href=\"scale_info/form/trait.Form.html\" title=\"trait scale_info::form::Form\">Form</a>&gt; Encode for <a class=\"struct\" href=\"scale_info/struct.TypeDefCompact.html\" title=\"struct scale_info::TypeDefCompact\">TypeDefCompact</a>&lt;T&gt; <span class=\"where fmt-newline\">where<br>&nbsp;&nbsp;&nbsp;&nbsp;T::<a class=\"associatedtype\" href=\"scale_info/form/trait.Form.html#associatedtype.Type\" title=\"type scale_info::form::Form::Type\">Type</a>: Encode,<br>&nbsp;&nbsp;&nbsp;&nbsp;T::<a class=\"associatedtype\" href=\"scale_info/form/trait.Form.html#associatedtype.Type\" title=\"type scale_info::form::Form::Type\">Type</a>: Encode,&nbsp;</span>", false, ["scale_info::ty::TypeDefCompact"]⟩,
    ⟨"impl&lt;T:&nbsp;<a class=\"trait\" href=\"scale_info/form/trait.Form.html\" title=\"trait scale_info::form::Form\">Form</a>&gt; Encode for <a class=\"struct\" href=\"scale_info/struct.TypeDefBitSequence.html\" title=\"struct scale_info::TypeDefBitSequence\">TypeDefBitSequence</a>&lt;T&gt; <span class=\"where fmt-newline\">where<br>&nbsp;&nbsp;&nbsp;&nbsp;T::<a class=\"associatedtype\" href=\"scale_info/form/trait.Form.html#associatedtype.Type\" title=\"type scale_info::form::Form::Type\">Type</a>: Encode,<br>&nbsp;&nbsp;&nbsp;&nbsp;T::<a class=\"associatedtype\" href=\"scale_info/form/trait.Form.html#associatedtype.Type\" title=\"type scale_info::form::Form::Type\">Type</a>: Encode,<br>&nbsp;&nbsp;&nbsp;&nbsp;T::<a class=\"associatedtype\" href=\"scale_info/form/trait.Form.html#associatedtype.Type\" title=\"type scale_info::form::Form::Type\">Type</a>: Encode,<br>&nbsp;&nbsp;&nbsp;&nbsp;T::<a class=\"associatedtype\" href=\"scale_info/form/trait.Form.html#associatedtype.Type\" title=\"type scale_info::form::Form::Type\">Type</a>: Encode,&nbsp;</span>", false, ["scale_info::ty::TypeDefBitSequence"]⟩])]

/-- The browser-global state the script touches: whether
`window.register_implementors` is installed (truthy), the contents of
`window.pending_implementors`, and the log of hook invocations with their
arguments.  The script declares no other global binding: its `implementors`
variable is local to the IIFE. -/
structure WindowState where
  hookInstalled : Bool
  pending : Option Registry
  hookCalls : List Registry
deriving DecidableEq, Repr

/-- The publish step of the script: if the hook is installed it is invoked
synchronously with the registry as sole argument (recorded by appending the
argument to the invocation log); otherwise the registry is stored into the
pending slot. -/
def publish (r : Registry) (w : WindowState) : WindowState :=
  if w.hookInstalled then { w with hookCalls := w.hookCalls ++ [r] }
  else { w with pending := some r }

/-- One execution of the whole IIFE: build the constant registry and publish
it. -/
def scriptRun (w : WindowState) : WindowState :=
  publish load w

/-- The component phases of the spec state machine: the script has either not
yet run (UNPUBLISHED) or has run (PUBLISHED). -/
inductive LoaderPhase where
  | unpublished
  | published
deriving DecidableEq, Repr

/-- The step function of the loader: from UNPUBLISHED the single transition
runs the script once; from PUBLISHED no step exists (the IIFE executes once
per load and leaves no way to run again). -/
def loaderStep : LoaderPhase → WindowState → Option (LoaderPhase × WindowState)
  | .unpublished, w => some (.published, scriptRun w)
  | .published, _ => none

/-- A descriptor is well formed when its type-path sequence is non-empty. -/
def descriptorWellFormed (d : ImplementorDescriptor) : Bool :=
  !d.types.isEmpty

/-- A registry is well formed when every key is a non-empty module name and
every descriptor of every entry is well formed. -/
def registryWellFormed (r : Registry) : Bool :=
  r.all fun p => !(p.1 == "") && p.2.all descriptorWellFormed

/-- Sample descriptor for concrete witnesses. -/
def sampleDescriptor : ImplementorDescriptor :=
  ⟨"descriptor1", false, ["modA::T"]⟩

/-- Sample registry with one module and one descriptor. -/
def sampleRegistryA : Registry := [("modA", [sampleDescriptor])]

/-- Second sample registry, distinct from `sampleRegistryA`. -/
def sampleRegistryC : Registry := [("modC", [⟨"descriptor2", true, ["modC::U"]⟩])]

/-- Registry violating the non-empty-descriptor-sequence invariant. -/
def malformedRegistry : Registry := [("modB", [])]

/-- Window with the hook installed, slot empty, no calls yet. -/
def hookWindow : WindowState := ⟨true, none, []⟩

/-- Window with the hook absent, slot empty, no calls yet. -/
def bareWindow : WindowState := ⟨false, none, []⟩

/-- C1: for every registry R, if the hook is installed at publish time, the
publish step invokes the hook exactly once (the invocation log grows by
exactly one entry) with a single argument equal to R, and leaves the pending
slot untouched. -/
theorem publish_hook_installed (r : Registry) (w : WindowState)
    (h : w.hookInstalled = true) :
    (publish r w).hookCalls = w.hookCalls ++ [r] ∧
    (publish r w).hookCalls.length = w.hookCalls.length + 1 ∧
    (publish r w).pending = w.pending := by
  simp [publish, h]

/-- Witness for C1 at the registry of the spec scenario and a window with the
hook pre-installed. -/
theorem publish_hook_installed_witness :
    (publish sampleRegistryA hookWindow).hookCalls = hookWindow.hookCalls ++ [sampleRegistryA] ∧
    (publish sampleRegistryA hookWindow).hookCalls.length = hookWindow.hookCalls.length + 1 ∧
    (publish sampleRegistryA hookWindow).pending = hookWindow.pending :=
  publish_hook_installed sampleRegistryA hookWindow rfl

/-- C2: for every registry R, if the hook is absent at publish time, the
pending slot ends up holding exactly R and the hook is never invoked (the
invocation log is unchanged). -/
theorem publish_hook_absent (r : Registry) (w : WindowState)
    (h : w.hookInstalled = false) :
    (publish r w).pending = some r ∧
    (publish r w).hookCalls = w.hookCalls := by
  simp [publish, h]

/-- Witness for C2 at a concrete registry and a hookless window. -/
theorem publish_hook_absent_witness :
    (publish sampleRegistryA bareWindow).pending = some sampleRegistryA ∧
    (publish sampleRegistryA bareWindow).hookCalls = bareWindow.hookCalls :=
  publish_hook_absent sampleRegistryA bareWindow rfl

/-- C3: a single publish performs exactly one of the two side effects:
either the hook is invoked once with R and the pending slot is unchanged, or
the pending slot is written to R and the hook is not invoked — never both and
never neither. -/
theorem publish_exactly_one_effect (r : Registry) (w : WindowState) :
    Xor'
      ((publish r w).hookCalls = w.hookCalls ++ [r] ∧ (publish r w).pending = w.pending)
      ((publish r w).pending = some r ∧ (publish r w).hookCalls = w.hookCalls) := by
  by_cases h : w.hookInstalled
  · refine Or.inl ⟨by simp [publish, h], ?_⟩
    rintro ⟨-, hc⟩
    have hlen := congrArg List.length hc
    simp [publish, h] at hlen
  · refine Or.inr ⟨by simp [publish, h], ?_⟩
    rintro ⟨hc, -⟩
    have hlen := congrArg List.length hc
    simp [publish, h] at hlen

/-- C4: the registry produced by `load` satisfies the data-model invariant:
every key is a non-empty module name and every descriptor's type-path
sequence is non-empty. -/
theorem load_wellFormed : registryWellFormed load = true := by
  decide

/-- C5: `load` is a constant registry with exactly the keys `ink_env`,
`ink_primitives` and `scale_info` in that order, bound to sequences of 8, 1
and 16 descriptor records respectively (each record carrying exactly the
fields `text`, `synthetic` and `types`, as the `ImplementorDescriptor` type
states). -/
theorem load_shape :
    load.map Prod.fst = ["ink_env", "ink_primitives", "scale_info"] ∧
    load.map (fun p => p.2.length) = [8, 1, 16] := by
  exact ⟨rfl, rfl⟩

/-- C6: publish is total and validates nothing: for every registry, even one
violating the non-empty invariant, when the hook is absent the value is
stored into the pending slot as-is and nothing else of the window changes. -/
theorem publish_total_no_validation (r : Registry) (w : WindowState)
    (h : w.hookInstalled = false) :
    publish r w = { w with pending := some r } := by
  simp [publish, h]

/-- Witness for C6 at the registry of the spec scenario, whose single key is
mapped to an empty descriptor sequence: publish stores it unmodified. -/
theorem publish_total_no_validation_witness :
    malformedRegistry = [("modB", [])] ∧
    publish malformedRegistry bareWindow = { bareWindow with pending := some malformedRegistry } :=
  ⟨rfl, publish_total_no_validation malformedRegistry bareWindow rfl⟩

/-- C7: publish is not idempotent: with the hook absent throughout, two
publishes leave the pending slot equal to the second registry (the second
overwrites the first); with the hook installed throughout, two publishes
invoke the hook twice, once per call, with the respective arguments. -/
theorem publish_not_idempotent (r1 r2 : Registry) (wa wi : WindowState)
    (ha : wa.hookInstalled = false) (hi : wi.hookInstalled = true) :
    (publish r2 (publish r1 wa)).pending = some r2 ∧
    (publish r2 (publish r1 wi)).hookCalls = wi.hookCalls ++ [r1, r2] := by
  constructor
  · simp [publish, ha]
  · simp [publish, hi]

/-- Witness for C7 at two distinct concrete registries, a hookless window and
a hooked window. -/
theorem publish_not_idempotent_witness :
    (publish sampleRegistryC (publish sampleRegistryA bareWindow)).pending = some sampleRegistryC ∧
    (publish sampleRegistryC (publish sampleRegistryA hookWindow)).hookCalls
      = hookWindow.hookCalls ++ [sampleRegistryA, sampleRegistryC] :=
  publish_not_idempotent sampleRegistryA sampleRegistryC bareWindow hookWindow rfl rfl

/-- C8: the loader state machine has exactly the two phases UNPUBLISHED and
PUBLISHED; the single transition out of UNPUBLISHED runs the script once, and
PUBLISHED is terminal: no step leaves it, so the component never publishes
again nor returns to UNPUBLISHED. -/
theorem loaderStep_terminal (w : WindowState) :
    loaderStep LoaderPhase.published w = none ∧
    loaderStep LoaderPhase.unpublished w = some (LoaderPhase.published, scriptRun w) ∧
    ∀ p : LoaderPhase, p = LoaderPhase.unpublished ∨ p = LoaderPhase.published := by
  refine ⟨rfl, rfl, fun p => ?_⟩
  cases p
  · exact Or.inl rfl
  · exact Or.inr rfl

/-- C9: the publish step touches no global state beyond the slot/hook pair:
the hook-installed flag is only read, never written, and exactly one of the
two remaining effects happens — either the invocation log grows by the single
entry R with the pending slot untouched, or the pending slot is written once
to R with the log untouched.  `WindowState` lists every global the script
reads or writes; the script's `implementors` variable is local to the IIFE
and creates no global binding. -/
theorem publish_frame (r : Registry) (w : WindowState) :
    (publish r w).hookInstalled = w.hookInstalled ∧
    (((publish r w).pending = w.pending ∧ (publish r w).hookCalls = w.hookCalls ++ [r]) ∨
     ((publish r w).pending = some r ∧ (publish r w).hookCalls = w.hookCalls)) := by
  by_cases h : w.hookInstalled
  · exact ⟨by simp [publish, h], Or.inl (by simp [publish, h])⟩
  · exact ⟨by simp [publish, h], Or.inr (by simp [publish, h])⟩

/-- C10: the whole load-and-publish script is deterministic: two runs started
from field-wise equal hook, pending-slot and invocation-log states end in
equal final global states. -/
theorem scriptRun_deterministic (w1 w2 : WindowState)
    (h1 : w1.hookInstalled = w2.hookInstalled)
    (h2 : w1.pending = w2.pending)
    (h3 : w1.hookCalls = w2.hookCalls) :
    scriptRun w1 = scriptRun w2 := by
  have hw : w1 = w2 := by
    cases w1
    cases w2
    simp_all
  rw [hw]

/-- Witness for C10 at two syntactically distinct but field-wise equal
windows. -/
theorem scriptRun_deterministic_witness :
    scriptRun bareWindow = scriptRun ⟨false, none, []⟩ :=
  scriptRun_deterministic bareWindow ⟨false, none, []⟩ rfl rfl rfl
